import Mathlib

/-!
Verification of VulnVortex's network discovery and scan scheduling against
its specification. The definitions below are a shallow embedding of
src/src/tools/network_discovery.py (class NetworkDiscovery) and
src/src/tools/scan_scheduler.py (class ScanScheduler). Network and DNS
behaviour is abstracted as an oracle (NetEnv) giving, for each address and
port, the outcome of a TCP connection attempt, and for each address the
result of a reverse lookup. IPv4 addresses are modelled as natural numbers
(the string rendering used by the code is injective, so nothing is lost).
-/

namespace VulnVortex

/-- Outcome of one socket.create_connection attempt: the connection is
established, or actively refused (raising ConnectionRefusedError, a subclass
of socket.error / OSError), or it times out (raising socket.timeout). -/
inductive ConnOutcome
  | established
  | refused
  | timedOut
deriving DecidableEq

/-- The network oracle: what the environment answers to the probes the code
makes. `connect ip port` is the outcome of socket.create_connection
((ip, port), timeout); `resolve ip` is `some name` when
socket.gethostbyaddr(ip) returns a hostname and `none` when it raises
socket.herror (host not resolvable). -/
structure NetEnv where
  connect : Nat → Nat → ConnOutcome
  resolve : Nat → Option String

/-- The per-device record built by NetworkDiscovery._scan_ip (device_info):
ip, hostname (None when unresolvable), open_ports. The code builds no
banner mapping; see `banners`. -/
structure DeviceInfo where
  ip : Nat
  hostname : Option String
  open_ports : List Nat
deriving DecidableEq

/-- The fixed port list of NetworkDiscovery._scan_common_ports. -/
def common_ports : List Nat := [22, 80, 443, 445, 3389]

/-- NetworkDiscovery._is_host_alive: attempt a TCP connection to port 80;
return True on success, False when socket.timeout or socket.error is raised
(a refused connection raises a socket.error subclass, so it yields False). -/
def is_host_alive (env : NetEnv) (ip : Nat) : Bool :=
  env.connect ip 80 == ConnOutcome.established

/-- NetworkDiscovery._is_port_open: TCP connect to (ip, port); True on
success, False on socket.timeout or socket.error. -/
def is_port_open (env : NetEnv) (ip port : Nat) : Bool :=
  env.connect ip port == ConnOutcome.established

/-- NetworkDiscovery._scan_common_ports: keep, in list order, the common
ports for which _is_port_open holds. -/
def scan_common_ports (env : NetEnv) (ip : Nat) : List Nat :=
  common_ports.filter (fun p => is_port_open env ip p)

/-- NetworkDiscovery._resolve_hostname: socket.gethostbyaddr(ip)[0], with
socket.herror caught and turned into None. -/
def resolve_hostname (env : NetEnv) (ip : Nat) : Option String :=
  env.resolve ip

/-- NetworkDiscovery._scan_ip: if _is_host_alive fails the function returns
None; otherwise it fills hostname via _resolve_hostname, then open_ports via
_scan_common_ports, and returns the device_info record. -/
def scan_ip (env : NetEnv) (ip : Nat) : Option DeviceInfo :=
  if is_host_alive env ip then
    some { ip := ip
           hostname := resolve_hostname env ip
           open_ports := scan_common_ports env ip }
  else
    none

/-- The banner mapping of a scan result, as a port-to-text association list.
NetworkDiscovery performs no banner collection anywhere, so the mapping of
every produced result is empty. -/
def banners (_ : DeviceInfo) : List (Nat × String) := []

/-- The probe stages of NetworkDiscovery._scan_ip in the order its body runs
them. -/
inductive Stage
  | livenessCheck
  | hostnameResolution
  | portSweep
  | bannerCollection
deriving DecidableEq

/-- The sequence of stages one _scan_ip call executes: the liveness check
always runs first; when the host is not alive the function returns at once;
otherwise it resolves the hostname and then sweeps the common ports. No
banner-collection stage exists in the code. -/
def scan_ip_stages (env : NetEnv) (ip : Nat) : List Stage :=
  if is_host_alive env ip then
    [Stage.livenessCheck, Stage.hostnameResolution, Stage.portSweep]
  else
    [Stage.livenessCheck]

/-- The network address of ipaddress.ip_network(spec, strict=False) for an
address `addr` under prefix length `pfx`: the host bits are masked off. -/
def network_address (addr pfx : Nat) : Nat :=
  addr / 2 ^ (32 - pfx) * 2 ^ (32 - pfx)

/-- The number of addresses the network object contains (and hence the
number of _scan_ip tasks NetworkDiscovery.discover submits). Iterating a
Python IPv4Network yields every address of the block, network and broadcast
included, so the count is 2 ^ (32 - pfx). -/
def addressSpaceLen (pfx : Nat) : Nat := 2 ^ (32 - pfx)

/-- The broadcast address of the block: its numerically largest address. -/
def broadcast_address (addr pfx : Nat) : Nat :=
  network_address addr pfx + (2 ^ (32 - pfx) - 1)

/-- The address sequence `for ip in self.ip_range` iterates over: every
address of the masked block, in ascending numeric order. -/
def enumerate (addr pfx : Nat) : List Nat :=
  (List.range (2 ^ (32 - pfx))).map (fun k => network_address addr pfx + k)

/-- NetworkDiscovery.discover: submit _scan_ip for every address of the
range and collect the non-None results (`if result: devices.append(result)`).
The thread pool completes futures in a nondeterministic order; this
embedding collects them in submission order, which is faithful for every
per-address and cardinality property (those are permutation-invariant). -/
def discover (env : NetEnv) (addr pfx : Nat) : List DeviceInfo :=
  (enumerate addr pfx).filterMap (scan_ip env)

/-- An environment in which every connection attempt times out and no
address resolves. -/
def deadEnv : NetEnv :=
  { connect := fun _ _ => ConnOutcome.timedOut
    resolve := fun _ => none }

/-- An environment in which every connection attempt is refused. -/
def refusedEnv : NetEnv :=
  { connect := fun _ _ => ConnOutcome.refused
    resolve := fun _ => none }

/-- An environment in which every connection attempt succeeds and no
address resolves. -/
def aliveEnv : NetEnv :=
  { connect := fun _ _ => ConnOutcome.established
    resolve := fun _ => none }

/-! ## ScanScheduler (src/src/tools/scan_scheduler.py)

ScanScheduler keeps two pieces of state that matter to the claims: its own
job dictionary `self.jobs`, and the module-level job registry of the
`schedule` library that add_job populates through
`schedule.every()...do(...)`. Both are modelled explicitly so that the
effect of `schedule.clear(tag)` is visible. -/

/-- The failure modes of add_job / remove_job. The code raises ValueError
with a distinguishing message in each case; the constructors name those
messages. `invalidTimeFormat` is the ScheduleValueError (a ValueError
subclass) that the schedule library's Job.at raises on a malformed time
string, before .do() could register anything. -/
inductive SchedError
  | duplicateJobID
  | missingTime
  | missingTimeOrDay
  | invalidDay
  | missingInterval
  | invalidScheduleType
  | invalidTimeFormat
  | unknownJobID
deriving DecidableEq

/-- Digit value of a character. -/
def digitVal (c : Char) : Nat := c.toNat - Char.toNat '0'

/-- The schedule library's time-string validation inside Job.at, which
add_job reaches through `schedule.every().day.at(time)` (daily) and
`getattr(schedule.every(), day).at(time)` (weekly): the string must match
HH:MM or HH:MM:SS — first hour digit 0-2, minute and second 00-59 — and
the hour value must be at most 23. On any other string, at() raises
ScheduleValueError before .do() registers the job. -/
def validTimeFormat (t : String) : Bool :=
  match t.toList with
  | [h1, h2, c1, m1, m2] =>
    decide (c1 = ':' ∧ '0' ≤ h1 ∧ h1 ≤ '2' ∧ h2.isDigit = true ∧
      '0' ≤ m1 ∧ m1 ≤ '5' ∧ m2.isDigit = true ∧
      10 * digitVal h1 + digitVal h2 ≤ 23)
  | [h1, h2, c1, m1, m2, c2, s1, s2] =>
    decide (c1 = ':' ∧ c2 = ':' ∧ '0' ≤ h1 ∧ h1 ≤ '2' ∧
      h2.isDigit = true ∧ '0' ≤ m1 ∧ m1 ≤ '5' ∧ m2.isDigit = true ∧
      '0' ≤ s1 ∧ s1 ≤ '5' ∧ s2.isDigit = true ∧
      10 * digitVal h1 + digitVal h2 ≤ 23)
  | _ => false

/-- The keyword arguments accepted by add_job: `time` for daily and weekly,
`day` for weekly, `interval` for interval scheduling. -/
structure JobKwargs where
  time : Option String
  day : Option String
  interval : Option Nat
deriving DecidableEq

/-- The per-job record stored in self.jobs:
{"task": task, "schedule_type": ..., "kwargs": ...} (the task callable is
opaque and is identified by its job id). -/
structure JobRec where
  scheduleType : String
  kwargs : JobKwargs
deriving DecidableEq

/-- One job of the `schedule` library's registry. `.do(self._execute_job,
job_id=job_id, task=task)` binds the job id the firing will execute; `tags`
is the job's tag set, which add_job never populates (it never calls
`.tag(...)`). -/
structure LibJob where
  jobId : String
  tags : List String
deriving DecidableEq

/-- The scheduler state: self.jobs as an insertion-ordered association
list, plus the `schedule` library's registry. -/
structure SchedState where
  jobs : List (String × JobRec)
  lib : List LibJob
deriving DecidableEq

/-- The valid day names checked by the weekly branch of add_job. -/
def weekdays : List String :=
  ["monday", "tuesday", "wednesday", "thursday", "friday", "saturday",
   "sunday"]

/-- `job_id in self.jobs`. -/
def hasJob (s : SchedState) (jobId : String) : Bool :=
  (s.jobs.lookup jobId).isSome

/-- The state after a successful registration: `schedule.every()...do(...)`
appends an untagged job to the library registry, then
`self.jobs[job_id] = {...}` records the job. -/
def registerJob (s : SchedState) (jobId scheduleType : String)
    (kwargs : JobKwargs) : SchedState :=
  { jobs := s.jobs ++ [(jobId, { scheduleType := scheduleType
                                 kwargs := kwargs })]
    lib := s.lib ++ [{ jobId := jobId, tags := [] }] }

/-- ScanScheduler.add_job as a state transformer: the returned state is the
scheduler state when the call returns or raises, and the second component
is the ValueError raised, when any. Every raise in the code happens before
any mutation, which this translation preserves branch by branch: the
daily and weekly branches reach the schedule library's Job.at, which
raises on a malformed time string (validTimeFormat) before .do() appends
anything to the registry; the weekly branch checks the day name first,
as the code does. -/
def add_job_run (s : SchedState) (jobId scheduleType : String)
    (kwargs : JobKwargs) : SchedState × Option SchedError :=
  if hasJob s jobId then
    (s, some SchedError.duplicateJobID)
  else if scheduleType = "daily" then
    match kwargs.time with
    | none => (s, some SchedError.missingTime)
    | some t =>
      if validTimeFormat t then
        (registerJob s jobId scheduleType kwargs, none)
      else
        (s, some SchedError.invalidTimeFormat)
  else if scheduleType = "weekly" then
    match kwargs.time, kwargs.day with
    | some t, some d =>
      if d.toLower ∈ weekdays then
        if validTimeFormat t then
          (registerJob s jobId scheduleType kwargs, none)
        else
          (s, some SchedError.invalidTimeFormat)
      else
        (s, some SchedError.invalidDay)
    | _, _ => (s, some SchedError.missingTimeOrDay)
  else if scheduleType = "interval" then
    match kwargs.interval with
    | none => (s, some SchedError.missingInterval)
    | some _ => (registerJob s jobId scheduleType kwargs, none)
  else
    (s, some SchedError.invalidScheduleType)

/-- ScanScheduler.add_job seen by the caller: the updated scheduler on
success, the raised ValueError otherwise. -/
def add_job (s : SchedState) (jobId scheduleType : String)
    (kwargs : JobKwargs) : Except SchedError SchedState :=
  match add_job_run s jobId scheduleType kwargs with
  | (_, some e) => Except.error e
  | (s', none) => Except.ok s'

/-- schedule.clear(tag): delete from the registry every job carrying the
given tag; jobs without the tag are kept. -/
def schedule_clear (lib : List LibJob) (tag : String) : List LibJob :=
  lib.filter (fun j => !(j.tags.contains tag))

/-- ScanScheduler.remove_job: raise when the id is absent from self.jobs;
otherwise call schedule.clear(job_id) and delete the id from self.jobs. -/
def remove_job (s : SchedState) (jobId : String) :
    Except SchedError SchedState :=
  if hasJob s jobId then
    Except.ok { jobs := s.jobs.filter (fun kv => kv.1 ≠ jobId)
                lib := schedule_clear s.lib jobId }
  else
    Except.error SchedError.unknownJobID

/-- One scheduler tick (schedule.run_pending inside _run_scheduler) on
which every registered library job is due: the job ids whose tasks fire. -/
def run_pending (s : SchedState) : List String :=
  s.lib.map (fun j => j.jobId)

/-! ## NetworkDiscovery construction (NetworkDiscovery.__init__) -/

/-- The errors observable while constructing NetworkDiscovery. The only
raise in __init__ comes from ipaddress.ip_network on a malformed range
(a ValueError); no ConfigurationError type exists in the code. -/
inductive InitError
  | invalidRange
  | configurationError
deriving DecidableEq

/-- The configuration stored by __init__. -/
structure NDConfig where
  maxThreads : Int
  timeout : Int
deriving DecidableEq

/-- NetworkDiscovery.__init__ with ip-range parsing abstracted to a
validity flag: on a valid range the parameters are stored unchecked, with
max_threads defaulting to 50 and timeout to 2; max_threads is never
validated. -/
def networkDiscovery_init (ipRangeValid : Bool) (maxThreads : Option Int)
    (timeout : Option Int) : Except InitError NDConfig :=
  if ipRangeValid then
    Except.ok { maxThreads := maxThreads.getD 50
                timeout := timeout.getD 2 }
  else
    Except.error InitError.invalidRange

/-! ## Helper lemmas -/

instance {ε α : Type} [DecidableEq ε] [DecidableEq α] :
    DecidableEq (Except ε α) := fun a b =>
  match a, b with
  | Except.error x, Except.error y =>
    if h : x = y then Decidable.isTrue (by rw [h])
    else Decidable.isFalse (fun hc => by cases hc; exact h rfl)
  | Except.error _, Except.ok _ => Decidable.isFalse (fun hc => by cases hc)
  | Except.ok _, Except.error _ => Decidable.isFalse (fun hc => by cases hc)
  | Except.ok x, Except.ok y =>
    if h : x = y then Decidable.isTrue (by rw [h])
    else Decidable.isFalse (fun hc => by cases hc; exact h rfl)

/-- filterMap with scan_ip keeps exactly the alive addresses, each mapped to
its device record. -/
theorem scan_ip_filterMap (env : NetEnv) (l : List Nat) :
    l.filterMap (scan_ip env) =
      (l.filter (fun ip => is_host_alive env ip)).map
        (fun ip =>
          ({ ip := ip
             hostname := resolve_hostname env ip
             open_ports := scan_common_ports env ip } : DeviceInfo)) := by
  induction l with
  | nil => rfl
  | cons a l ih =>
    cases h : is_host_alive env a <;>
      simp [List.filterMap_cons, List.filter_cons, scan_ip, h, ih]

/-! ## Claims -/

/-- Claim C1, counterexample: on the single-address space 10.0.0.1/32 with
an unreachable host, discover returns no result at all, so the result count
differs from the address-space size — unreachable addresses are omitted,
not reported with alive=false. -/
theorem discover_omits_unreachable :
    (discover deadEnv 167772161 32).length ≠ addressSpaceLen 32 := by decide

/-- Claim C1 as amended: a sweep yields exactly one result per address the
liveness check classifies alive, in particular the result count is the
number of alive addresses and never exceeds the address-space size;
unreachable addresses yield no result. -/
theorem discover_one_result_per_alive_address (env : NetEnv)
    (addr pfx : Nat) :
    discover env addr pfx =
      ((enumerate addr pfx).filter (fun ip => is_host_alive env ip)).map
        (fun ip =>
          ({ ip := ip
             hostname := resolve_hostname env ip
             open_ports := scan_common_ports env ip } : DeviceInfo)) ∧
    (discover env addr pfx).length ≤ addressSpaceLen pfx := by
  refine ⟨scan_ip_filterMap env _, ?_⟩
  calc (discover env addr pfx).length
      = ((enumerate addr pfx).filter
          (fun ip => is_host_alive env ip)).length := by
        rw [discover, scan_ip_filterMap, List.length_map]
    _ ≤ (enumerate addr pfx).length := List.length_filter_le _ _
    _ = addressSpaceLen pfx := by
        simp [enumerate, addressSpaceLen]

/-- Claim C2, counterexample: for the /30 block at address 8 the code
enumerates all four addresses, network address 8 and broadcast address 11
included, so the length is 4 and not the usable-host count 2. -/
theorem enumerate_includes_network_and_broadcast :
    (enumerate 8 30).length = 4 ∧
    network_address 8 30 ∈ enumerate 8 30 ∧
    broadcast_address 8 30 ∈ enumerate 8 30 := by decide

/-- Claim C2 as amended: the enumeration is in strictly ascending order
with no duplicates and its length is 2 ^ (32 - pfx), but the network and
broadcast addresses are always included — `for ip in self.ip_range`
iterates the whole block, for every prefix length. -/
theorem enumerate_ascending_full_block (addr pfx : Nat) :
    (enumerate addr pfx).length = addressSpaceLen pfx ∧
    (enumerate addr pfx).Pairwise (· < ·) ∧
    (enumerate addr pfx).Nodup ∧
    network_address addr pfx ∈ enumerate addr pfx ∧
    broadcast_address addr pfx ∈ enumerate addr pfx := by
  have hpos : 0 < 2 ^ (32 - pfx) := Nat.pos_pow_of_pos _ (by norm_num)
  have hpair : (enumerate addr pfx).Pairwise (· < ·) := by
    rw [enumerate, List.pairwise_map]
    exact (List.pairwise_lt_range _).imp
      (fun h => Nat.add_lt_add_left h _)
  refine ⟨by simp [enumerate, addressSpaceLen], hpair,
    hpair.imp (fun h => Nat.ne_of_lt h), ?_, ?_⟩
  · rw [enumerate]
    exact List.mem_map.mpr
      ⟨0, List.mem_range.mpr hpos, by simp⟩
  · rw [enumerate]
    exact List.mem_map.mpr
      ⟨2 ^ (32 - pfx) - 1,
       List.mem_range.mpr (Nat.sub_lt hpos (by norm_num)), rfl⟩

/-- Claim C3, counterexample: a connection refused raises a socket.error
subclass, which _is_host_alive catches and turns into False — a refused
address is classified unreachable, not alive. -/
theorem refused_not_alive : is_host_alive refusedEnv 5 = false := by decide

/-- Claim C3 as amended: the liveness check classifies an address alive
exactly when the TCP connection to port 80 is established; a refused
connection and a timeout are both classified unreachable. -/
theorem is_host_alive_iff_established (env : NetEnv) (ip : Nat) :
    (is_host_alive env ip = true ↔
      env.connect ip 80 = ConnOutcome.established) ∧
    (env.connect ip 80 = ConnOutcome.refused →
      is_host_alive env ip = false) ∧
    (env.connect ip 80 = ConnOutcome.timedOut →
      is_host_alive env ip = false) := by
  refine ⟨by simp [is_host_alive], ?_, ?_⟩ <;>
    (intro h; simp [is_host_alive, h])

/-- Witness for `is_host_alive_iff_established` at the all-refusing
environment. -/
theorem is_host_alive_iff_established_witness :
    is_host_alive refusedEnv 6 = false :=
  (is_host_alive_iff_established refusedEnv 6).2.1 (by decide)

/-- Claim C4, counterexample: on an alive host the probe stages run as
liveness check, then hostname resolution, then port sweep — not the claimed
liveness, port sweep, hostname resolution, banner collection order (no
banner-collection stage exists at all). -/
theorem stage_order_differs :
    scan_ip_stages aliveEnv 5 ≠
      [Stage.livenessCheck, Stage.portSweep, Stage.hostnameResolution,
       Stage.bannerCollection] := by decide

/-- Claim C4 as amended: within one probe the liveness check always runs
first; an unreachable result short-circuits everything else; on an alive
host the remaining stages run in the fixed order hostname resolution then
port sweep, and no banner-collection stage exists. -/
theorem scan_ip_stage_order (env : NetEnv) (ip : Nat) :
    (scan_ip_stages env ip).head? = some Stage.livenessCheck ∧
    (is_host_alive env ip = true →
      scan_ip_stages env ip =
        [Stage.livenessCheck, Stage.hostnameResolution, Stage.portSweep]) ∧
    (is_host_alive env ip = false →
      scan_ip_stages env ip = [Stage.livenessCheck]) := by
  cases h : is_host_alive env ip <;> simp [scan_ip_stages, h]

/-- Witness for `scan_ip_stage_order` on an alive host. -/
theorem scan_ip_stage_order_witness :
    scan_ip_stages aliveEnv 7 =
      [Stage.livenessCheck, Stage.hostnameResolution, Stage.portSweep] :=
  (scan_ip_stage_order aliveEnv 7).2.1 (by decide)

/-- The scheduler state right after adding the interval job of the C5 run:
one entry in self.jobs and one untagged library job. -/
def c5_added : SchedState :=
  { jobs := [("daily_scan",
      { scheduleType := "interval"
        kwargs := { time := none, day := none, interval := some 10 } })]
    lib := [{ jobId := "daily_scan", tags := [] }] }

/-- The scheduler state after remove_job: self.jobs is empty, but
schedule.clear("daily_scan") matched no job (none carries that tag), so the
library job survives. -/
def c5_removed : SchedState :=
  { jobs := []
    lib := [{ jobId := "daily_scan", tags := [] }] }

/-- Claim C5: add_job registers the library job without tagging it, so the
schedule.clear(job_id) call inside remove_job removes nothing; after a
successful remove_job the job still sits in the schedule registry and its
task still fires on the next tick on which it is due. -/
theorem removed_job_still_fires :
    add_job { jobs := [], lib := [] } "daily_scan" "interval"
        { time := none, day := none, interval := some 10 } =
      Except.ok c5_added ∧
    remove_job c5_added "daily_scan" = Except.ok c5_removed ∧
    "daily_scan" ∈ run_pending c5_removed := by decide

/-- Claim C6, counterexample: constructing NetworkDiscovery with
max_threads = 0 succeeds — no ConfigurationError is raised, the value is
stored unchecked. -/
theorem init_accepts_zero_threads :
    networkDiscovery_init true (some 0) none ≠
      Except.error InitError.configurationError := by decide

/-- Claim C6 as amended: on a valid ip_range, construction always succeeds;
max_threads defaults to 50 when unspecified and is otherwise stored without
any validation, values ≤ 0 included. -/
theorem init_stores_unvalidated (m t : Option Int) :
    networkDiscovery_init true m t =
      Except.ok { maxThreads := m.getD 50, timeout := t.getD 2 } := by
  simp [networkDiscovery_init]

/-- The cadence arguments under which add_job's schedule-type branches
succeed: daily needs a well-formed time, weekly a well-formed time and a
valid day name, interval an interval. -/
def validCadence (scheduleType : String) (kwargs : JobKwargs) : Bool :=
  (scheduleType == "daily" &&
    ((kwargs.time.map validTimeFormat).getD false)) ||
  (scheduleType == "weekly" &&
    ((kwargs.time.map validTimeFormat).getD false) &&
    ((kwargs.day.map (fun d => decide (d.toLower ∈ weekdays))).getD false)) ||
  (scheduleType == "interval" && kwargs.interval.isSome)

/-- Complete case analysis of add_job_run: a duplicate id fails with the
duplicate error and no mutation; otherwise the call either registers the
job (exactly when the cadence arguments are valid) or fails with some
non-duplicate error, again without mutation. -/
theorem add_job_run_cases (s : SchedState) (jobId scheduleType : String)
    (kwargs : JobKwargs) :
    (hasJob s jobId = true ∧
      add_job_run s jobId scheduleType kwargs =
        (s, some SchedError.duplicateJobID)) ∨
    (hasJob s jobId = false ∧
      ((validCadence scheduleType kwargs = true ∧
         add_job_run s jobId scheduleType kwargs =
           (registerJob s jobId scheduleType kwargs, none)) ∨
       (validCadence scheduleType kwargs = false ∧
        ∃ e, e ≠ SchedError.duplicateJobID ∧
          add_job_run s jobId scheduleType kwargs = (s, some e)))) := by
  obtain ⟨time, day, iv⟩ := kwargs
  by_cases h : hasJob s jobId = true
  · exact Or.inl ⟨h, by unfold add_job_run; rw [if_pos h]⟩
  · have hf : hasJob s jobId = false := by simpa using h
    refine Or.inr ⟨hf, ?_⟩
    unfold add_job_run
    rw [if_neg h]
    by_cases hd : scheduleType = "daily"
    · subst hd
      cases time with
      | none =>
        exact Or.inr ⟨by simp [validCadence],
          SchedError.missingTime, by simp, rfl⟩
      | some tm =>
        by_cases hvt : validTimeFormat tm = true
        · refine Or.inl ⟨by simp [validCadence, hvt], by simp [hvt]⟩
        · refine Or.inr ⟨?_, SchedError.invalidTimeFormat, by simp,
            by simp [hvt]⟩
          simp only [validCadence]
          simp [Bool.eq_false_iff, hvt]
    · by_cases hw : scheduleType = "weekly"
      · subst hw
        rw [if_neg hd, if_pos rfl]
        cases time with
        | none =>
          cases day with
          | none =>
            exact Or.inr ⟨by simp [validCadence],
              SchedError.missingTimeOrDay, by simp, rfl⟩
          | some d =>
            exact Or.inr ⟨by simp [validCadence],
              SchedError.missingTimeOrDay, by simp, rfl⟩
        | some tm =>
          cases day with
          | none =>
            exact Or.inr ⟨by simp [validCadence],
              SchedError.missingTimeOrDay, by simp, rfl⟩
          | some d =>
            by_cases hmem : d.toLower ∈ weekdays
            · by_cases hvt : validTimeFormat tm = true
              · refine Or.inl ⟨?_, by simp [hmem, hvt]⟩
                simp [validCadence, hmem, hvt]
              · refine Or.inr ⟨?_, SchedError.invalidTimeFormat, by simp,
                  by simp [hmem, hvt]⟩
                simp only [validCadence]
                simp [Bool.eq_false_iff, hvt]
            · refine Or.inr ⟨?_, SchedError.invalidDay, by simp,
                by simp [hmem]⟩
              simp [validCadence, hmem]
      · by_cases hi : scheduleType = "interval"
        · subst hi
          rw [if_neg hd, if_neg hw, if_pos rfl]
          cases iv with
          | none =>
            exact Or.inr ⟨by simp [validCadence],
              SchedError.missingInterval, by simp, rfl⟩
          | some n =>
            exact Or.inl ⟨by simp [validCadence], rfl⟩
        · rw [if_neg hd, if_neg hw, if_neg hi]
          refine Or.inr ⟨?_, SchedError.invalidScheduleType, by simp, rfl⟩
          simp [validCadence, hd, hw, hi]

/-- Claim C7, counterexample: with an empty scheduler, adding a fresh id
with the unsupported schedule type "hourly" fails with the
invalid-schedule-type error instead of registering the job, although no job
with that id exists. -/
theorem fresh_id_add_can_fail :
    hasJob { jobs := [], lib := [] } "a" = false ∧
    add_job { jobs := [], lib := [] } "a" "hourly"
        { time := none, day := none, interval := none } =
      Except.error SchedError.invalidScheduleType := by decide

/-- Claim C7 as amended: add_job fails with the duplicate-id error exactly
when the id already exists; remove_job fails exactly when the id is absent,
and then always with the unknown-id error; and a fresh id registers the job
exactly when the schedule type and its cadence parameters are valid,
time-string format included — otherwise add_job fails with one of the
other errors and registers nothing. -/
theorem add_remove_job_errors (s : SchedState)
    (jobId scheduleType : String) (kwargs : JobKwargs) :
    (add_job s jobId scheduleType kwargs =
        Except.error SchedError.duplicateJobID ↔ hasJob s jobId = true) ∧
    (remove_job s jobId = Except.error SchedError.unknownJobID ↔
      hasJob s jobId = false) ∧
    (∀ e, remove_job s jobId = Except.error e →
      e = SchedError.unknownJobID) ∧
    (hasJob s jobId = false →
      (add_job s jobId scheduleType kwargs =
          Except.ok (registerJob s jobId scheduleType kwargs) ↔
        validCadence scheduleType kwargs = true)) ∧
    (hasJob s jobId = false → validCadence scheduleType kwargs = false →
      ∃ e, e ≠ SchedError.duplicateJobID ∧
        add_job s jobId scheduleType kwargs = Except.error e) := by
  have hrem : remove_job s jobId = Except.error SchedError.unknownJobID ↔
      hasJob s jobId = false := by
    by_cases h : hasJob s jobId = true
    · simp [remove_job, h]
    · have hf : hasJob s jobId = false := by simpa using h
      simp [remove_job, h, hf]
  refine ⟨?_, hrem, ?_, ?_, ?_⟩
  · rcases add_job_run_cases s jobId scheduleType kwargs with
      ⟨htrue, heq⟩ | ⟨hfalse, ⟨_, heq⟩ | ⟨_, e, hne, heq⟩⟩
    · simp [add_job, heq, htrue]
    · simp [add_job, heq, hfalse]
    · simp only [add_job, heq, hfalse, Bool.false_eq_true, iff_false]
      intro hc
      exact hne (by injection hc)
  · intro e he
    by_cases h : hasJob s jobId = true
    · rw [remove_job, if_pos h] at he
      cases he
    · rw [remove_job, if_neg h] at he
      injection he with he
      exact he.symm
  · intro hfresh
    rcases add_job_run_cases s jobId scheduleType kwargs with
      ⟨htrue, _⟩ | ⟨_, ⟨hvalid, heq⟩ | ⟨hbad, e, _, heq⟩⟩
    · rw [htrue] at hfresh
      cases hfresh
    · exact ⟨fun _ => hvalid, fun _ => by simp [add_job, heq]⟩
    · simp [add_job, heq, hbad]
  · intro hfresh hbad
    rcases add_job_run_cases s jobId scheduleType kwargs with
      ⟨htrue, _⟩ | ⟨_, ⟨hvalid, _⟩ | ⟨_, e, hne, heq⟩⟩
    · rw [htrue] at hfresh
      cases hfresh
    · rw [hvalid] at hbad
      cases hbad
    · exact ⟨e, hne, by simp [add_job, heq]⟩

/-- Witness for `add_remove_job_errors`: on an empty scheduler, adding a
daily job with the well-formed time "02:00" registers it. -/
theorem add_remove_job_errors_witness :
    add_job { jobs := [], lib := [] } "daily_scan" "daily"
        { time := some "02:00", day := none, interval := none } =
      Except.ok (registerJob { jobs := [], lib := [] } "daily_scan" "daily"
        { time := some "02:00", day := none, interval := none }) :=
  ((add_remove_job_errors { jobs := [], lib := [] } "daily_scan" "daily"
    { time := some "02:00", day := none, interval := none }).2.2.2.1
    (by decide)).mpr (by decide)

/-- Claim C8: every device record a probe returns has its open_ports drawn
from the scanned common-port list, and the (empty) banner mapping's keys
are trivially a subset of open_ports. -/
theorem open_ports_subset_scanned (env : NetEnv) (ip : Nat)
    (d : DeviceInfo) (h : scan_ip env ip = some d) :
    d.open_ports ⊆ common_ports ∧
    (banners d).map Prod.fst ⊆ d.open_ports := by
  constructor
  · rw [scan_ip] at h
    split at h
    · injection h with h
      rw [← h]
      exact List.filter_subset' _
    · cases h
  · simp [banners]

/-- The device record produced for address 5 in the all-answering
environment. -/
def aliveDevice : DeviceInfo :=
  { ip := 5, hostname := none, open_ports := [22, 80, 443, 445, 3389] }

/-- Witness for `open_ports_subset_scanned` on a concrete probe result. -/
theorem open_ports_subset_scanned_witness :
    aliveDevice.open_ports ⊆ common_ports ∧
    (banners aliveDevice).map Prod.fst ⊆ aliveDevice.open_ports :=
  open_ports_subset_scanned aliveEnv 5 aliveDevice (by decide)

/-- Claim C9: on an alive address whose reverse lookup fails (raising
socket.herror), the probe records hostname None, still runs the port sweep,
and still returns a device record — the resolution failure never aborts the
probe. -/
theorem hostname_failure_nonfatal (env : NetEnv) (ip : Nat)
    (halive : is_host_alive env ip = true)
    (hres : env.resolve ip = none) :
    scan_ip env ip =
      some { ip := ip
             hostname := none
             open_ports := scan_common_ports env ip } := by
  rw [scan_ip, if_pos halive, resolve_hostname, hres]

/-- Witness for `hostname_failure_nonfatal` in the all-answering,
never-resolving environment. -/
theorem hostname_failure_nonfatal_witness :
    scan_ip aliveEnv 9 =
      some { ip := 9
             hostname := none
             open_ports := scan_common_ports aliveEnv 9 } :=
  hostname_failure_nonfatal aliveEnv 9 (by decide) rfl

/-- Claim C10: whenever add_job raises (duplicate id, unknown schedule
type, missing time, missing day, invalid day, or missing interval), the
scheduler state — its job map included — is exactly the state before the
call: every raise happens before any mutation. -/
theorem add_job_error_leaves_state_unchanged (s : SchedState)
    (jobId scheduleType : String) (kwargs : JobKwargs) (e : SchedError)
    (h : (add_job_run s jobId scheduleType kwargs).2 = some e) :
    (add_job_run s jobId scheduleType kwargs).1 = s := by
  rcases add_job_run_cases s jobId scheduleType kwargs with
    ⟨_, heq⟩ | ⟨_, ⟨_, heq⟩ | ⟨_, e', _, heq⟩⟩
  · rw [heq]
  · rw [heq] at h
    cases h
  · rw [heq]

/-- Witness for `add_job_error_leaves_state_unchanged`: adding a daily job
without a time to the empty scheduler fails and leaves it empty. -/
theorem add_job_error_leaves_state_unchanged_witness :
    (add_job_run { jobs := [], lib := [] } "a" "daily"
      { time := none, day := none, interval := none }).1 =
      { jobs := [], lib := [] } :=
  add_job_error_leaves_state_unchanged { jobs := [], lib := [] } "a"
    "daily" { time := none, day := none, interval := none }
    SchedError.missingTime (by decide)

end VulnVortex
